import Mathlib

/-!
Shallow embedding of the speechmatics-demo-rabbitmq repository:
- callback_server/sm_http_bucket_server.py  (namespace HttpBucket)
- rabbitmq_client/aws.py                    (namespace Aws)
- rabbitmq_client/rabbitmq_client.py        (namespace RabbitmqClient)
- sm_batch_transcriber/rabbitmq_receiver_with_pipeline.py (namespace Receiver)
External collaborators (the Python UTF-8 codec, the HTTP client, the AMQP
broker, the S3 client, the operating-system environment) are modelled as
explicit parameters or as small transition systems, noted at each definition.
-/

/-- A byte string, as a list of byte values. -/
abbrev Bytes := List Nat

/-- One step of strict UTF-8 decoding (RFC 3629, as implemented by the Python
codec used by bytes.decode with encoding utf-8): decodes the first scalar value
from the byte list, rejecting overlong forms, surrogates and values above
0x10FFFF, and returns the code point together with the remaining bytes. -/
def utf8DecodeNext : Bytes → Option (Nat × Bytes)
  | [] => none
  | b0 :: rest =>
    if b0 < 0x80 then some (b0, rest)
    else if 0xC2 ≤ b0 ∧ b0 ≤ 0xDF then
      match rest with
      | b1 :: rest1 =>
        if 0x80 ≤ b1 ∧ b1 ≤ 0xBF then
          some ((b0 - 0xC0) * 64 + (b1 - 0x80), rest1)
        else none
      | [] => none
    else if 0xE0 ≤ b0 ∧ b0 ≤ 0xEF then
      match rest with
      | b1 :: b2 :: rest2 =>
        if 0x80 ≤ b1 ∧ b1 ≤ 0xBF ∧ 0x80 ≤ b2 ∧ b2 ≤ 0xBF then
          let cp := (b0 - 0xE0) * 4096 + (b1 - 0x80) * 64 + (b2 - 0x80)
          if 0x800 ≤ cp ∧ ¬ (0xD800 ≤ cp ∧ cp ≤ 0xDFFF) then some (cp, rest2)
          else none
        else none
      | _ => none
    else if 0xF0 ≤ b0 ∧ b0 ≤ 0xF4 then
      match rest with
      | b1 :: b2 :: b3 :: rest3 =>
        if 0x80 ≤ b1 ∧ b1 ≤ 0xBF ∧ 0x80 ≤ b2 ∧ b2 ≤ 0xBF ∧ 0x80 ≤ b3 ∧ b3 ≤ 0xBF then
          let cp := (b0 - 0xF0) * 262144 + (b1 - 0x80) * 4096 + (b2 - 0x80) * 64 + (b3 - 0x80)
          if 0x10000 ≤ cp ∧ cp ≤ 0x10FFFF then some (cp, rest3)
          else none
        else none
      | _ => none
    else none

/-- Fuel-indexed decoding loop; each step consumes at least one byte, so fuel
equal to the length of the input always suffices. -/
def utf8DecodeAux : Nat → Bytes → Option (List Char)
  | _, [] => some []
  | 0, _ :: _ => none
  | fuel + 1, b :: bs =>
    match utf8DecodeNext (b :: bs) with
    | none => none
    | some (cp, rest) =>
      match utf8DecodeAux fuel rest with
      | none => none
      | some cs => some (Char.ofNat cp :: cs)

/-- Strict UTF-8 decoding of a whole byte string, modelling the Python
expression data.decode with encoding utf-8: some decoded text on success,
none when a UnicodeDecodeError would be raised. -/
def utf8Decode (b : Bytes) : Option String :=
  (utf8DecodeAux b.length b).map List.asString

namespace HttpBucket

/-- An HTTP response as (body, status code), modelling the pairs the Flask
handlers return. -/
structure Response where
  body : String
  status : Nat
deriving DecidableEq

/-- Response of the outbound GET issued by do_post_action, modelling the
fields of the requests library response that the code reads. -/
structure HttpResp where
  status_code : Nat
  content : String
deriving DecidableEq

/-- Model of the external HTTP client requests.get: given a URL and headers it
returns a response or raises (Except.error carries the exception message). -/
abbrev Net := String → List (String × String) → Except String HttpResp

/-- The inbound request as the handlers read it: attached files as raw bytes,
raw body bytes, headers, query args (after the single-element-list
normalisation of post_request, so values are plain strings; header lookup is
modelled as exact key lookup), method, current epoch time and peer address. -/
structure HttpRequest where
  files : List (String × Bytes)
  body : Bytes
  headers : List (String × String)
  args : List (String × String)
  method : String
  reqTime : Nat
  remote_addr : String

/-- A stored request record, the dict built by post_request. -/
structure CapturedRequest where
  files : List (String × String)
  text : String
  headers : List (String × String)
  method : String
  time : Nat
  remote_addr : String
deriving DecidableEq

def ACTION_URL : String := "X-Action-Url"

def ACTION_AUTH : String := "X-Action-Authorization"

/-- The value do_post_action returns: either the error dict for a missing
X-Action-Url header, or the status/content dict of the outbound GET. -/
inductive ActionResult
  | missingUrl (error : String)
  | done (status_code : Nat) (content : String)
deriving DecidableEq

/-- do_post_action (sm_http_bucket_server.py lines 22-34): resolves the action
URL from the X-Action-Url header with the jobid placeholder substituted,
forwards X-Action-Authorization as Authorization when present, and performs the
outbound GET. The GET is not guarded: an exception from the HTTP client
propagates to the caller (Except.error). -/
def do_post_action (net : Net) (headers : List (String × String)) (job_id : String) :
    Except String ActionResult :=
  match headers.lookup ACTION_URL with
  | none => Except.ok (ActionResult.missingUrl (ACTION_URL ++ " is required for a post action"))
  | some url_template =>
    let request_headers :=
      match headers.lookup ACTION_AUTH with
      | some v => [("Authorization", v)]
      | none => []
    let action_url := url_template.replace "$jobid" job_id
    match net action_url request_headers with
    | Except.ok res => Except.ok (ActionResult.done res.status_code res.content)
    | Except.error e => Except.error e

/-- The body stored for the request: the UTF-8 decoded body, or the fixed
marker when decoding fails (post_request lines 84-88). -/
def decodeTextData (b : Bytes) : String :=
  match utf8Decode b with
  | some s => s
  | none => "decode error"

/-- The text stored for one attached file: its UTF-8 decoding, or the binary
placeholder naming the exact byte count (post_request lines 74-79). -/
def decodeFileData (b : Bytes) : String :=
  match utf8Decode b with
  | some s => s
  | none => "<binary data:" ++ toString b.length ++ " bytes>"

/-- The CapturedRequest dict that post_request builds for a request
(lines 103-110). -/
def captureOf (req : HttpRequest) : CapturedRequest :=
  { files := req.files.map fun p => (p.1, decodeFileData p.2)
    text := decodeTextData req.body
    headers := req.headers
    method := req.method
    time := req.reqTime
    remote_addr := req.remote_addr }

/-- post_request (lines 63-118): decodes files and body, runs the optional
post-notify action (args lookup of the id key raises KeyError when absent, and
an exception of the outbound GET propagates, aborting the handler before the
store is touched), then inserts the record at the head of the store and pops
the last entry when the length exceeds 100, answering ok / HTTP 200.
The result pairs the response with the updated store. -/
def post_request (net : Net) (req : HttpRequest) (requests_store : List CapturedRequest) :
    Except String (Response × List CapturedRequest) :=
  let file_data := req.files.map fun p => (p.1, decodeFileData p.2)
  let text_data := decodeTextData req.body
  let args_dict := req.args
  let action :=
    if (args_dict.lookup "postnotifyaction").isSome then
      match args_dict.lookup "id" with
      | none => Except.error "KeyError"
      | some job_id => (do_post_action net req.headers job_id).map some
    else Except.ok none
  match action with
  | Except.error e => Except.error e
  | Except.ok _post_notify_action_response =>
    let request : CapturedRequest :=
      { files := file_data, text := text_data, headers := req.headers
        method := req.method, time := req.reqTime, remote_addr := req.remote_addr }
    let store1 := request :: requests_store
    let store2 := if store1.length > 100 then store1.dropLast else store1
    Except.ok (⟨"ok", 200⟩, store2)

/-- list_requests (lines 56-60): GET / returns the stored list as-is. -/
def list_requests (requests_store : List CapturedRequest) : List CapturedRequest :=
  requests_store

/-- Python truthiness of the configured auth value: None and the empty string
are falsy. -/
def authTruthy : Option String → Bool
  | none => false
  | some t => decide (t ≠ "")

/-- auth_middleware (lines 37-53) applied to a handler result: when the
configured auth value is truthy, the request passes only if its Authorization
header equals Bearer followed by the token (a missing header or a failed
comparison both land in the bare except); otherwise the wrapped handler runs
unconditionally. -/
def auth_wrapper (auth : Option String) (authHeader : Option String)
    (handlerResult : Response) : Response :=
  if authTruthy auth then
    match auth with
    | some auth_token =>
      if authHeader = some ("Bearer " ++ auth_token) then handlerResult
      else ⟨"Not authorized", 403⟩
    | none => handlerResult
  else handlerResult

/-- One POST against the store: on success the store is replaced by the
updated one; when the handler raises, the store is untouched (the insert in
the source happens after every raising statement). -/
def postStep (net : Net) (st : List CapturedRequest) (req : HttpRequest) :
    List CapturedRequest :=
  match post_request net req st with
  | Except.ok (_, st2) => st2
  | Except.error _ => st

/-- A sequence of POSTs processed in order against the shared store. -/
def processPosts (net : Net) (reqs : List HttpRequest) (st : List CapturedRequest) :
    List CapturedRequest :=
  reqs.foldl (postStep net) st

end HttpBucket

namespace Aws

/-- The exception class raised by the S3 client when signing a URL fails
(botocore ClientError); only its presence matters here. -/
structure ClientError where
  message : String
deriving DecidableEq

/-- get_s3_object_urls (aws.py lines 43-52), with the external S3 client
modelled by its two effects: the enumerated keys are the input list (the
paginated listing) and sign models generate_presigned_url, which either
returns a URL or raises a ClientError. A key whose signing raises is skipped
(the error is logged in the source) and iteration continues; successes are
appended in enumeration order. -/
def get_s3_object_urls (sign : String → Except ClientError String) :
    List String → List String
  | [] => []
  | key :: rest =>
    match sign key with
    | Except.ok url => url :: get_s3_object_urls sign rest
    | Except.error _ => get_s3_object_urls sign rest

end Aws

namespace RabbitmqClient

/-- The error raised for a missing required environment variable. -/
inductive PyErr
  | keyError
deriving DecidableEq

/-- get_env (rabbitmq_client.py lines 18-43). The process environment is the
function env (none for unset, some v for a variable set to v, including the
empty string). value is os.environ.get of the variable with default_val as
fallback; when value is neither the empty string nor None it is returned,
otherwise a required variable raises KeyError and an optional one yields
default_val. -/
def get_env (env : String → Option String) (env_var : String)
    (default_val : Option String) (required : Bool) : Except PyErr (Option String) :=
  let value :=
    match env env_var with
    | some v => some v
    | none => default_val
  if value ≠ some "" ∧ value ≠ none then Except.ok value
  else if required then Except.error PyErr.keyError
  else Except.ok default_val

/-- The exception class retried by the retry decorator on make_connection
(pika.exceptions.AMQPConnectionError). -/
structure AMQPConnectionError where
  message : String
deriving DecidableEq

/-- An established broker connection (pika.BlockingConnection); only its
identity matters here. -/
structure BlockingConnection where
  id : Nat
deriving DecidableEq

/-- The retry combinator applied by the decorator retry with the connection
error class and delay 10 and no max-tries bound: attempts models successive
calls of the wrapped function (call i either returns a connection or raises
the retried class); on an exception the loop sleeps and retries the next
attempt. The fuel argument bounds how many attempts are examined, modelling
observation of an unbounded loop for finitely long: some (delays, c) means the
call returned c after performing the listed sleeps, none means it is still
retrying after fuel attempts (it has not returned and has raised nothing). -/
def retryLoop {E C : Type} (attempts : Nat → Except E C) (delays : List Nat)
    (i : Nat) : Nat → Option (List Nat × C)
  | 0 => none
  | fuel + 1 =>
    match attempts i with
    | Except.ok c => some (delays, c)
    | Except.error _ => retryLoop attempts (delays ++ [10]) (i + 1) fuel

/-- make_connection (rabbitmq_client.py lines 46-60): the connection attempt
wrapped in the retry decorator with delay 10 and no retry bound. -/
def make_connection (attempts : Nat → Except AMQPConnectionError BlockingConnection)
    (fuel : Nat) : Option (List Nat × BlockingConnection) :=
  retryLoop attempts [] 0 fuel

/-- A published job message: the serialized body carries jobId and url
(rabbitmq_client.py lines 106-112). -/
structure JobMessage where
  jobId : String
  url : String
deriving DecidableEq

/-- The publish loop of main (lines 102-113): messageNumber starts at 1 and
each URL is published with the current number as its jobId, in order. -/
def publishLoop : Nat → List String → List JobMessage
  | _, [] => []
  | messageNumber, url :: rest =>
    ⟨toString messageNumber, url⟩ :: publishLoop (messageNumber + 1) rest

/-- The messages main publishes to the named queue for a bucket whose
enumerated keys and signing behaviour are given: exactly the publish loop over
the URLs that get_s3_object_urls returns. -/
def main_published (sign : String → Except Aws.ClientError String)
    (keys : List String) : List JobMessage :=
  publishLoop 1 (Aws.get_s3_object_urls sign keys)

end RabbitmqClient

namespace Receiver

/-- get_env (rabbitmq_receiver_with_pipeline.py lines 19-44), identical to the
producer copy. -/
def get_env (env : String → Option String) (env_var : String)
    (default_val : Option String) (required : Bool) :
    Except RabbitmqClient.PyErr (Option String) :=
  let value :=
    match env env_var with
    | some v => some v
    | none => default_val
  if value ≠ some "" ∧ value ≠ none then Except.ok value
  else if required then Except.error RabbitmqClient.PyErr.keyError
  else Except.ok default_val

/-- Any exception raised while connecting; retry_policy (lines 47-53) returns
(False, 10) for every failure, so every exception class is retried after 10
seconds. -/
structure ConnectError where
  message : String
deriving DecidableEq

/-- An established robust connection (aio_pika); only its identity matters. -/
structure RobustConnection where
  id : Nat
deriving DecidableEq

/-- make_connection (lines 56-70): the aio_pika connect wrapped in the
aioretry decorator with retry_policy, i.e. unlimited retries at a fixed
10-second delay. -/
def make_connection (attempts : Nat → Except ConnectError RobustConnection)
    (fuel : Nat) : Option (List Nat × RobustConnection) :=
  RabbitmqClient.retryLoop attempts [] 0 fuel

/-- The json dict written to the job-config file by start_transcription
(lines 91-96). -/
structure JobConfig where
  type : String
  language : String
  fetch_url : String
  notification_url : String
  notification_contents : List String
deriving DecidableEq

/-- Observable effects of handling one message: writing the job-config file,
the external pipeline process exiting with a code, and acknowledging the
message. -/
inductive Event
  | writeConfig (cfg : JobConfig)
  | workerExit (code : Int)
  | ack
deriving DecidableEq

/-- Exceptions that escape the message-handling path. -/
inductive HandlerError
  | jsonDecodeError
  | keyError (key : String)
deriving DecidableEq

/-- The parsed message body as json.loads yields it: none when the body is not
valid JSON, otherwise the object fields (only string values are relevant). -/
abbrev ParsedBody := Option (List (String × String))

/-- Whether the body parses as a Job record: valid JSON with both jobId and
url present. -/
def parses_as_job (body : ParsedBody) : Bool :=
  match body with
  | none => false
  | some fields => (fields.lookup "jobId").isSome && (fields.lookup "url").isSome

/-- start_transcription (lines 73-117) with json.loads pre-applied to the
message (body) and the external pipeline process modelled by its exit code:
returns the events performed in order, paired with the exception that escaped,
if any. A JSON parse failure, a missing jobId (line 89) or a missing url
(line 94) raises before the config file is written, so no event occurs; on a
well-formed body the config is written and the pipeline runs to completion
whatever its exit code. -/
def start_transcription (body : ParsedBody) (callback_server : String)
    (exitCode : Int) : List Event × Option HandlerError :=
  match body with
  | none => ([], some HandlerError.jsonDecodeError)
  | some message_content =>
    match message_content.lookup "jobId" with
    | none => ([], some (HandlerError.keyError "jobId"))
    | some _job_id =>
      match message_content.lookup "url" with
      | none => ([], some (HandlerError.keyError "url"))
      | some url =>
        let job_config : JobConfig :=
          { type := "transcription"
            language := "en"
            fetch_url := url
            notification_url := callback_server
            notification_contents := ["transcript.txt", "transcript.json-v2"] }
        ([Event.writeConfig job_config, Event.workerExit exitCode], none)

/-- callback (lines 147-152): awaits start_transcription and then acknowledges
the message; an exception from start_transcription propagates and the ack is
never reached. -/
def callback (body : ParsedBody) (callback_server : String) (exitCode : Int) :
    List Event × Option HandlerError :=
  let r := start_transcription body callback_server exitCode
  match r.2 with
  | none => (r.1 ++ [Event.ack], none)
  | some e => (r.1, some e)

/-- The channel operations of main (lines 154-159) in program order. -/
inductive ChannelOp
  | setQos (prefetch_count : Nat)
  | declareQueue (name : String)
  | consumeLoop
deriving DecidableEq

/-- main opens a channel, sets QoS prefetch to 1, declares the queue and only
then enters the consume loop. -/
def main_channel_ops (rabbit_queue_name : String) : List ChannelOp :=
  [ChannelOp.setQos 1, ChannelOp.declareQueue rabbit_queue_name, ChannelOp.consumeLoop]

end Receiver

namespace Amqp

/-- Modelled from the spec: the per-consumer state the broker tracks, reduced
to the number of delivered-but-unacknowledged messages (the code under src
only configures the broker; the QoS semantics live in the AMQP broker, an
external collaborator). -/
structure BrokerState where
  unacked : Nat
deriving DecidableEq

/-- Modelled from the spec: AMQP QoS prefetch semantics — the broker delivers
a further message to a consumer only while its unacknowledged count is below
the prefetch limit, and an acknowledgment releases one message. -/
inductive QosStep (prefetch : Nat) : BrokerState → BrokerState → Prop
  | deliver (s : BrokerState) : s.unacked < prefetch → QosStep prefetch s ⟨s.unacked + 1⟩
  | ack (s : BrokerState) : 0 < s.unacked → QosStep prefetch s ⟨s.unacked - 1⟩

end Amqp

section Helpers

/-- The publish loop pairs each URL with its 1-based position as jobId. -/
theorem publishLoop_eq_mapIdx : ∀ (urls : List String) (n : Nat),
    RabbitmqClient.publishLoop n urls =
      urls.mapIdx fun i url => ⟨toString (n + i), url⟩ := by
  intro urls
  induction urls with
  | nil => intro n; rfl
  | cons u rest ih =>
    intro n
    show (⟨toString n, u⟩ : RabbitmqClient.JobMessage) ::
        RabbitmqClient.publishLoop (n + 1) rest = _
    rw [List.mapIdx_cons, ih (n + 1)]
    congr 1
    congr 1
    funext i url
    congr 2
    omega

/-- Enumeration keeps exactly the keys whose signing succeeds, in order. -/
theorem get_s3_object_urls_eq_filterMap (sign : String → Except Aws.ClientError String) :
    ∀ keys : List String,
      Aws.get_s3_object_urls sign keys = keys.filterMap fun k => (sign k).toOption := by
  intro keys
  induction keys with
  | nil => rfl
  | cons k rest ih =>
    cases h : sign k with
    | ok url => simp [Aws.get_s3_object_urls, h, List.filterMap_cons, Except.toOption, ih]
    | error e => simp [Aws.get_s3_object_urls, h, List.filterMap_cons, Except.toOption, ih]

/-- The retry loop, started after k failed attempts, returns the first
success, having slept once per failed attempt. -/
theorem retryLoop_reaches {E C : Type} (attempts : Nat → Except E C) (n : Nat) (c : C)
    (hfail : ∀ i, i < n → ∃ e, attempts i = Except.error e)
    (hsucc : attempts n = Except.ok c) :
    ∀ fuel k, k ≤ n → n - k < fuel →
      RabbitmqClient.retryLoop attempts (List.replicate k 10) k fuel =
        some (List.replicate n 10, c) := by
  intro fuel
  induction fuel with
  | zero => intro k hk hf; omega
  | succ fuel ih =>
    intro k hk hf
    by_cases hkn : k = n
    · subst hkn
      simp [RabbitmqClient.retryLoop, hsucc]
    · have hklt : k < n := lt_of_le_of_ne hk hkn
      obtain ⟨e, he⟩ := hfail k hklt
      simp only [RabbitmqClient.retryLoop, he]
      have hrep : List.replicate k 10 ++ [10] = List.replicate (k + 1) 10 :=
        (List.replicate_succ' k 10).symm
      rw [hrep]
      exact ih (k + 1) hklt (by omega)

/-- If every attempt fails, the retry loop never returns. -/
theorem retryLoop_none {E C : Type} (attempts : Nat → Except E C)
    (hall : ∀ i, ∃ e, attempts i = Except.error e) :
    ∀ (fuel : Nat) (delays : List Nat) (i : Nat),
      RabbitmqClient.retryLoop attempts delays i fuel = none := by
  intro fuel
  induction fuel with
  | zero => intro delays i; rfl
  | succ fuel ih =>
    intro delays i
    obtain ⟨e, he⟩ := hall i
    simp only [RabbitmqClient.retryLoop, he]
    exact ih (delays ++ [10]) (i + 1)

end Helpers

/-- C2: for every enumeration and signing behaviour, the producer publishes
one job message per successfully signed URL, in enumeration order, with jobId
the strings 1 through N and url the corresponding signed URL; a key whose
signing raises a client error is skipped and contributes no published job. -/
theorem c2_producer_publishes_enumerated_urls
    (sign : String → Except Aws.ClientError String) (keys : List String) :
    RabbitmqClient.main_published sign keys =
      (Aws.get_s3_object_urls sign keys).mapIdx (fun i url => ⟨toString (i + 1), url⟩) ∧
    (RabbitmqClient.main_published sign keys).length =
      (Aws.get_s3_object_urls sign keys).length ∧
    Aws.get_s3_object_urls sign keys = keys.filterMap fun k => (sign k).toOption := by
  refine ⟨?_, ?_, get_s3_object_urls_eq_filterMap sign keys⟩
  · rw [RabbitmqClient.main_published, publishLoop_eq_mapIdx]
    congr 1
    funext i url
    congr 2
    omega
  · rw [RabbitmqClient.main_published, publishLoop_eq_mapIdx]
    simp

/-- C8: a run of make_connection, in the producer and in the consumer alike,
propagates no connection-level failure: it sleeps a fixed 10 seconds after
each failed attempt and retries without any maximum count, returning exactly
when an attempt first succeeds; if every attempt fails it never returns. -/
theorem c8_make_connection_retries_indefinitely
    (a1 : Nat → Except RabbitmqClient.AMQPConnectionError RabbitmqClient.BlockingConnection)
    (a2 : Nat → Except Receiver.ConnectError Receiver.RobustConnection)
    (n m : Nat) (c1 : RabbitmqClient.BlockingConnection) (c2 : Receiver.RobustConnection)
    (h1fail : ∀ i, i < n → ∃ e, a1 i = Except.error e) (h1succ : a1 n = Except.ok c1)
    (h2fail : ∀ i, i < m → ∃ e, a2 i = Except.error e) (h2succ : a2 m = Except.ok c2) :
    (∀ fuel, n < fuel →
      RabbitmqClient.make_connection a1 fuel = some (List.replicate n 10, c1)) ∧
    (∀ fuel, m < fuel →
      Receiver.make_connection a2 fuel = some (List.replicate m 10, c2)) ∧
    (∀ (a3 : Nat → Except RabbitmqClient.AMQPConnectionError RabbitmqClient.BlockingConnection),
      (∀ i, ∃ e, a3 i = Except.error e) →
      ∀ fuel, RabbitmqClient.make_connection a3 fuel = none) := by
  refine ⟨?_, ?_, ?_⟩
  · intro fuel hfuel
    exact retryLoop_reaches a1 n c1 h1fail h1succ fuel 0 (Nat.zero_le n) (by omega)
  · intro fuel hfuel
    exact retryLoop_reaches a2 m c2 h2fail h2succ fuel 0 (Nat.zero_le m) (by omega)
  · intro a3 hall fuel
    exact retryLoop_none a3 hall fuel [] 0

/-- Attempt sequence for the C8 witness: the producer connect fails twice then
succeeds. -/
def c8AttemptsProducer : Nat → Except RabbitmqClient.AMQPConnectionError RabbitmqClient.BlockingConnection :=
  fun i => if i < 2 then Except.error ⟨"broker not ready"⟩ else Except.ok ⟨7⟩

/-- Attempt sequence for the C8 witness: the consumer connect fails once then
succeeds. -/
def c8AttemptsReceiver : Nat → Except Receiver.ConnectError Receiver.RobustConnection :=
  fun i => if i = 0 then Except.error ⟨"network unreachable"⟩ else Except.ok ⟨3⟩

/-- C8 witness: two producer failures then success yields the connection after
two 10-second sleeps; one consumer failure then success yields it after one. -/
theorem c8_make_connection_retries_indefinitely_witness :
    RabbitmqClient.make_connection c8AttemptsProducer 3 = some ([10, 10], ⟨7⟩) ∧
    Receiver.make_connection c8AttemptsReceiver 2 = some ([10], ⟨3⟩) := by
  have h := c8_make_connection_retries_indefinitely c8AttemptsProducer c8AttemptsReceiver 2 1 ⟨7⟩ ⟨3⟩
    (by intro i hi; exact ⟨⟨"broker not ready"⟩, by simp [c8AttemptsProducer, hi]⟩)
    (by simp [c8AttemptsProducer])
    (by intro i hi; exact ⟨⟨"network unreachable"⟩, by simp [c8AttemptsReceiver]; omega⟩)
    (by simp [c8AttemptsReceiver])
  exact ⟨by simpa using h.1 3 (by omega), by simpa using h.2.1 2 (by omega)⟩

/-- C4: the consumer sets the QoS prefetch limit to exactly 1 strictly before
entering the consume loop, and under the prefetch-1 broker semantics every
state reachable from an idle consumer has at most one unacknowledged message,
so a second message is never delivered before the first is acknowledged. -/
theorem c4_qos_prefetch_one (q : String) (s : Amqp.BrokerState)
    (h : Relation.ReflTransGen (Amqp.QosStep 1) ⟨0⟩ s) :
    (∃ i j : Fin (Receiver.main_channel_ops q).length,
        i < j ∧
        (Receiver.main_channel_ops q).get i = Receiver.ChannelOp.setQos 1 ∧
        (Receiver.main_channel_ops q).get j = Receiver.ChannelOp.consumeLoop) ∧
    s.unacked ≤ 1 := by
  constructor
  · exact ⟨⟨0, by simp [Receiver.main_channel_ops]⟩, ⟨2, by simp [Receiver.main_channel_ops]⟩,
      by simp [Fin.lt_def], rfl, rfl⟩
  · induction h with
    | refl => simp
    | tail hab step ih =>
      cases step with
      | deliver hs => simp_all
      | ack hs => simp_all

/-- C4 witness: the state after one delivery is reachable and holds one
unacknowledged message, within the bound. -/
theorem c4_qos_prefetch_one_witness :
    (∃ i j : Fin (Receiver.main_channel_ops "speechmatics").length,
        i < j ∧
        (Receiver.main_channel_ops "speechmatics").get i = Receiver.ChannelOp.setQos 1 ∧
        (Receiver.main_channel_ops "speechmatics").get j = Receiver.ChannelOp.consumeLoop) ∧
    (⟨1⟩ : Amqp.BrokerState).unacked ≤ 1 :=
  c4_qos_prefetch_one "speechmatics" ⟨1⟩
    (Relation.ReflTransGen.single (Amqp.QosStep.deliver ⟨0⟩ (by simp)))

/-- C3: for every delivered message that parses as a Job and every exit code
of the external worker, the callback acknowledges exactly when the worker
invocation has returned — the event trace writes the JobConfig, records the
worker exit (whatever the code) and only then acknowledges, and no
acknowledgment ever precedes (or coincides with) the worker exit. -/
theorem c3_ack_follows_worker (f : List (String × String)) (cs : String) (code : Int)
    (j u : String) (hj : f.lookup "jobId" = some j) (hu : f.lookup "url" = some u) :
    Receiver.callback (some f) cs code =
      ([Receiver.Event.writeConfig
          ⟨"transcription", "en", u, cs, ["transcript.txt", "transcript.json-v2"]⟩,
        Receiver.Event.workerExit code, Receiver.Event.ack], none) ∧
    (Receiver.Event.ack ∈ (Receiver.callback (some f) cs code).1 ↔
      Receiver.Event.workerExit code ∈ (Receiver.callback (some f) cs code).1) ∧
    (∀ i k : Nat, (Receiver.callback (some f) cs code).1[i]? = some Receiver.Event.ack →
      (Receiver.callback (some f) cs code).1[k]? = some (Receiver.Event.workerExit code) →
      k < i) := by
  have htr : Receiver.callback (some f) cs code =
      ([Receiver.Event.writeConfig
          ⟨"transcription", "en", u, cs, ["transcript.txt", "transcript.json-v2"]⟩,
        Receiver.Event.workerExit code, Receiver.Event.ack], none) := by
    simp [Receiver.callback, Receiver.start_transcription, hj, hu]
  refine ⟨htr, ?_, ?_⟩
  · rw [htr]; simp
  · intro i k hi hk
    rw [htr] at hi hk
    rcases i with _ | _ | _ | i <;> rcases k with _ | _ | _ | k <;> simp_all

/-- C3 witness: a concrete well-formed message with worker exit code 1
(failure) still yields write-config, worker-exit, ack in that order. -/
theorem c3_ack_follows_worker_witness :
    ([("jobId", "1"), ("url", "http://signed")] : List (String × String)).lookup "jobId" =
        some "1" ∧
    Receiver.callback (some [("jobId", "1"), ("url", "http://signed")])
        "http://callback-server:8080" 1 =
      ([Receiver.Event.writeConfig
          ⟨"transcription", "en", "http://signed", "http://callback-server:8080",
            ["transcript.txt", "transcript.json-v2"]⟩,
        Receiver.Event.workerExit 1, Receiver.Event.ack], none) :=
  ⟨by decide,
    (c3_ack_follows_worker [("jobId", "1"), ("url", "http://signed")]
      "http://callback-server:8080" 1 "1" "http://signed" (by decide) (by decide)).1⟩

/-- C9: a delivered message whose body is not valid JSON or lacks jobId or url
makes the handling path raise: start_transcription propagates an error, the
callback propagates it too, and the event trace is empty — no JobConfig write,
no worker invocation and no acknowledgment. -/
theorem c9_malformed_message_faults (body : Receiver.ParsedBody) (cs : String) (code : Int)
    (h : Receiver.parses_as_job body = false) :
    (Receiver.start_transcription body cs code).2.isSome = true ∧
    (Receiver.callback body cs code).2.isSome = true ∧
    (Receiver.callback body cs code).1 = [] := by
  cases body with
  | none => simp [Receiver.callback, Receiver.start_transcription]
  | some fields =>
    cases hj : fields.lookup "jobId" with
    | none => simp [Receiver.callback, Receiver.start_transcription, hj]
    | some j =>
      cases hu : fields.lookup "url" with
      | none => simp [Receiver.callback, Receiver.start_transcription, hj, hu]
      | some u => simp [Receiver.parses_as_job, hj, hu] at h

/-- C9 witness: a body that is not valid JSON raises and produces no event. -/
theorem c9_malformed_message_faults_witness :
    Receiver.parses_as_job none = false ∧
    (Receiver.callback none "http://callback-server:8080" 0).1 = [] :=
  ⟨by decide,
    (c9_malformed_message_faults none "http://callback-server:8080" 0 (by decide)).2.2⟩

/-- C7: with a truthy configured token, a request whose Authorization header
is exactly Bearer followed by the token reaches the handler and its result is
returned; any other header value, and an absent header, get the 403 response;
with no token configured every request reaches the handler. -/
theorem c7_bearer_auth (token : String) (hne : token ≠ "") (hdr : Option String)
    (res : HttpBucket.Response) :
    HttpBucket.auth_wrapper (some token) (some ("Bearer " ++ token)) res = res ∧
    (hdr ≠ some ("Bearer " ++ token) →
      HttpBucket.auth_wrapper (some token) hdr res = ⟨"Not authorized", 403⟩) ∧
    HttpBucket.auth_wrapper none hdr res = res := by
  refine ⟨?_, ?_, ?_⟩
  · simp [HttpBucket.auth_wrapper, HttpBucket.authTruthy, hne]
  · intro hds
    simp [HttpBucket.auth_wrapper, HttpBucket.authTruthy, hne, hds]
  · rfl

/-- C7 witness: with the token secret123, the exact bearer header passes, an
absent header is refused with 403, and without configured auth the handler
answer comes back untouched. -/
theorem c7_bearer_auth_witness :
    HttpBucket.auth_wrapper (some "secret123") (some ("Bearer " ++ "secret123")) ⟨"ok", 200⟩ =
        ⟨"ok", 200⟩ ∧
    HttpBucket.auth_wrapper (some "secret123") none ⟨"ok", 200⟩ = ⟨"Not authorized", 403⟩ ∧
    HttpBucket.auth_wrapper none none ⟨"ok", 200⟩ = ⟨"ok", 200⟩ :=
  ⟨(c7_bearer_auth "secret123" (by decide) none ⟨"ok", 200⟩).1,
    (c7_bearer_auth "secret123" (by decide) none ⟨"ok", 200⟩).2.1 (by decide),
    (c7_bearer_auth "secret123" (by decide) none ⟨"ok", 200⟩).2.2⟩

/-- An HTTP client whose outbound GET raises a connection error, for C1. -/
def failingNet : HttpBucket.Net := fun _ _ => Except.error "ConnectionError"

/-- An HTTP client whose outbound GET answers 200, for C1. -/
def workingNet : HttpBucket.Net := fun _ _ => Except.ok ⟨200, "done"⟩

/-- A POST capture request carrying the post-notification flag and an action
URL, for C1. -/
def notifyReq : HttpBucket.HttpRequest :=
  { files := []
    body := [111, 107]
    headers := [("X-Action-Url", "http://bucket/notify?id=$jobid")]
    args := [("postnotifyaction", "true"), ("id", "42")]
    method := "POST"
    reqTime := 0
    remote_addr := "127.0.0.1" }

/-- C1: contrary to the fire-and-forget requirement, a failure of the outbound
notification GET makes the whole capture request fail: post_request propagates
the exception, so no success acknowledgment is produced and the store is left
without the CapturedRequest, whereas the same request with a working outbound
GET is stored and acknowledged with ok / 200. -/
theorem c1_outbound_failure_fails_capture :
    HttpBucket.post_request failingNet notifyReq [] = Except.error "ConnectionError" ∧
    HttpBucket.postStep failingNet [] notifyReq = [] ∧
    HttpBucket.post_request workingNet notifyReq [] =
      Except.ok (⟨"ok", 200⟩, [HttpBucket.captureOf notifyReq]) := by
  refine ⟨rfl, rfl, rfl⟩

/-- A POST without the post-notification flag always succeeds: the captured
record goes to the head of the store and the last entry is popped when the cap
is exceeded, with the fixed ok / 200 acknowledgment. -/
theorem post_request_no_action (net : HttpBucket.Net) (req : HttpBucket.HttpRequest)
    (st : List HttpBucket.CapturedRequest)
    (hpn : req.args.lookup "postnotifyaction" = none) :
    HttpBucket.post_request net req st =
      Except.ok (⟨"ok", 200⟩,
        if (HttpBucket.captureOf req :: st).length > 100 then
          (HttpBucket.captureOf req :: st).dropLast
        else HttpBucket.captureOf req :: st) := by
  simp [HttpBucket.post_request, hpn, HttpBucket.captureOf]

/-- Inserting at the head of a trimmed list and re-trimming equals trimming
the untrimmed insertion: one insert-and-pop step preserves the take-cap shape
of the store. -/
theorem trim_cons_take {α : Type} (cap : Nat) (hcap : 0 < cap) (x : α) (l : List α) :
    (if (x :: l.take cap).length > cap then (x :: l.take cap).dropLast
     else (x :: l.take cap)) = (x :: l).take cap := by
  obtain ⟨c, rfl⟩ : ∃ c, cap = c + 1 := ⟨cap - 1, by omega⟩
  rcases le_or_lt (c + 1) l.length with h | h
  · have h1 : (l.take (c + 1)).length = c + 1 := by simp; omega
    rw [if_pos (by simp [h1])]
    rw [List.dropLast_eq_take]
    have h2 : (x :: l.take (c + 1)).length - 1 = c + 1 := by simp [h1]
    rw [h2, List.take_succ_cons, List.take_take, List.take_succ_cons]
    have h3 : c ⊓ (c + 1) = c := by omega
    rw [h3]
  · have h0 : l.take (c + 1) = l := List.take_of_length_le (by omega)
    rw [h0, if_neg (by simp; omega)]
    exact (List.take_of_length_le (by simp; omega)).symm

/-- Running a sequence of flag-free POSTs against a store of take-cap shape
yields the newest-first concatenation trimmed to the cap. -/
theorem processPosts_take (net : HttpBucket.Net) :
    ∀ reqs : List HttpBucket.HttpRequest,
      (∀ r ∈ reqs, r.args.lookup "postnotifyaction" = none) →
      ∀ l : List HttpBucket.CapturedRequest,
        HttpBucket.processPosts net reqs (l.take 100) =
          ((reqs.map HttpBucket.captureOf).reverse ++ l).take 100 := by
  intro reqs
  induction reqs with
  | nil => intro _ l; simp [HttpBucket.processPosts]
  | cons r rest ih =>
    intro hpn l
    have hr := hpn r (List.mem_cons_self r rest)
    have hstep : HttpBucket.postStep net (l.take 100) r =
        (HttpBucket.captureOf r :: l).take 100 := by
      unfold HttpBucket.postStep
      rw [post_request_no_action net r _ hr]
      exact trim_cons_take 100 (by omega) _ l
    have hfold : HttpBucket.processPosts net (r :: rest) (l.take 100) =
        HttpBucket.processPosts net rest (HttpBucket.postStep net (l.take 100) r) := rfl
    rw [hfold, hstep, ih (fun x hx => hpn x (List.mem_cons_of_mem r hx))
      (HttpBucket.captureOf r :: l)]
    simp [List.append_assoc]

/-- C5: under any sequence of successful POSTs (no post-notification flag, so
none can fail) starting from the empty store, GET / returns exactly the
captured records of the at most 100 most recent requests, newest first; the
store length never exceeds 100 and equals exactly 100 once more than 100
requests have been captured. -/
theorem c5_store_capped_at_100 (net : HttpBucket.Net) (reqs : List HttpBucket.HttpRequest)
    (hpn : ∀ r ∈ reqs, r.args.lookup "postnotifyaction" = none) :
    HttpBucket.list_requests (HttpBucket.processPosts net reqs []) =
      ((reqs.map HttpBucket.captureOf).reverse).take 100 ∧
    (HttpBucket.processPosts net reqs []).length = min reqs.length 100 := by
  have h := processPosts_take net reqs hpn []
  simp only [List.take_nil, List.append_nil] at h
  refine ⟨h, ?_⟩
  rw [h]
  simp [List.length_take, Nat.min_comm]

/-- A plain POST capture request with no post-notification flag, for the C5
witness. -/
def plainReq : HttpBucket.HttpRequest :=
  { files := [("transcript.txt", [104, 105])]
    body := [111, 107]
    headers := [("Content-Type", "text/plain")]
    args := []
    method := "POST"
    reqTime := 5
    remote_addr := "10.0.0.1" }

/-- C5 witness: two plain POSTs produce a store of the two captured records,
newest first, of length two. -/
theorem c5_store_capped_at_100_witness :
    (∀ r ∈ [plainReq, plainReq], r.args.lookup "postnotifyaction" = none) ∧
    HttpBucket.list_requests (HttpBucket.processPosts workingNet [plainReq, plainReq] []) =
      (([plainReq, plainReq].map HttpBucket.captureOf).reverse).take 100 ∧
    (HttpBucket.processPosts workingNet [plainReq, plainReq] []).length =
      min ([plainReq, plainReq].length) 100 := by
  have hpn : ∀ r ∈ [plainReq, plainReq], r.args.lookup "postnotifyaction" = none := by
    intro r hr
    simp only [List.mem_cons, List.not_mem_nil, or_false] at hr
    rcases hr with rfl | rfl <;> rfl
  exact ⟨hpn, (c5_store_capped_at_100 workingNet [plainReq, plainReq] hpn).1,
    (c5_store_capped_at_100 workingNet [plainReq, plainReq] hpn).2⟩

/-- C6: for any flag-free capture request the stored head record is the
captured one, whose text is the decoded body when the body is valid UTF-8 and
the fixed marker decode error otherwise, and whose files mapping carries, for
each attachment, its decoded text when valid UTF-8 and otherwise the binary
placeholder naming the exact byte length. -/
theorem c6_utf8_fallback_markers (net : HttpBucket.Net) (req : HttpBucket.HttpRequest)
    (st : List HttpBucket.CapturedRequest)
    (hpn : req.args.lookup "postnotifyaction" = none) :
    (∃ st2, HttpBucket.post_request net req st = Except.ok (⟨"ok", 200⟩, st2) ∧
        st2.head? = some (HttpBucket.captureOf req)) ∧
    (utf8Decode req.body = none → (HttpBucket.captureOf req).text = "decode error") ∧
    (∀ s, utf8Decode req.body = some s → (HttpBucket.captureOf req).text = s) ∧
    (HttpBucket.captureOf req).files =
      req.files.map (fun p => (p.1, HttpBucket.decodeFileData p.2)) ∧
    (∀ b : Bytes, utf8Decode b = none →
      HttpBucket.decodeFileData b = "<binary data:" ++ toString b.length ++ " bytes>") ∧
    (∀ (b : Bytes) (s : String), utf8Decode b = some s → HttpBucket.decodeFileData b = s) := by
  refine ⟨?_, ?_, ?_, rfl, ?_, ?_⟩
  · rw [post_request_no_action net req st hpn]
    refine ⟨_, rfl, ?_⟩
    by_cases h : (HttpBucket.captureOf req :: st).length > 100
    · rw [if_pos h, List.dropLast_eq_take]
      have hlen : (HttpBucket.captureOf req :: st).length - 1 = st.length := by simp
      rw [hlen]
      obtain ⟨k, hk⟩ : ∃ k, st.length = k + 1 := ⟨st.length - 1, by simp at h; omega⟩
      rw [hk, List.take_succ_cons]
      rfl
    · rw [if_neg h]
      rfl
  · intro h
    simp [HttpBucket.captureOf, HttpBucket.decodeTextData, h]
  · intro s h
    simp [HttpBucket.captureOf, HttpBucket.decodeTextData, h]
  · intro b h
    simp [HttpBucket.decodeFileData, h]
  · intro b s h
    simp [HttpBucket.decodeFileData, h]

/-- A PUT capture request whose body and single attachment are both invalid
UTF-8, for the C6 witness. -/
def binaryReq : HttpBucket.HttpRequest :=
  { files := [("audio", [255, 0, 1])]
    body := [195]
    headers := []
    args := []
    method := "PUT"
    reqTime := 9
    remote_addr := "10.0.0.2" }

/-- C6 witness: an undecodable body stores the text decode error and an
undecodable three-byte attachment stores the binary placeholder naming three
bytes. -/
theorem c6_utf8_fallback_markers_witness :
    binaryReq.args.lookup "postnotifyaction" = none ∧
    utf8Decode binaryReq.body = none ∧
    (HttpBucket.captureOf binaryReq).text = "decode error" ∧
    HttpBucket.decodeFileData [255, 0, 1] = "<binary data:3 bytes>" := by
  refine ⟨rfl, by decide, ?_, ?_⟩
  · exact (c6_utf8_fallback_markers workingNet binaryReq [] rfl).2.1 (by decide)
  · have h := (c6_utf8_fallback_markers workingNet binaryReq [] rfl).2.2.2.2.1
      [255, 0, 1] (by decide)
    simpa using h

/-- Environment for C10 in which the bucket variable is set to the empty
string. -/
def envEmptySet : String → Option String :=
  fun v => if v = "S3_BUCKET_NAME" then some "" else none

/-- Environment for C10 in which the bucket variable is unset. -/
def envUnset : String → Option String := fun _ => none

/-- C10 counterexample: with required true and the non-empty default x,
get_env raises KeyError for a variable set to the empty string yet returns the
default for an unset variable, so set-to-empty is not treated exactly like
unset and the default is not returned. -/
theorem c10_counterexample :
    RabbitmqClient.get_env envEmptySet "S3_BUCKET_NAME" (some "x") true =
        Except.error RabbitmqClient.PyErr.keyError ∧
    RabbitmqClient.get_env envUnset "S3_BUCKET_NAME" (some "x") true =
        Except.ok (some "x") := by
  constructor <;> rfl

/-- C10 (amended): when required is false, get_env treats a variable set to
the empty string exactly like an unset one, returning the supplied default
(possibly None); when required is true, a variable set to the empty string
always raises KeyError — even when a non-empty default is supplied, unlike an
unset variable, which then returns that default — while an unset variable
raises KeyError exactly when there is no non-empty default; the consumer copy
of get_env coincides with the producer copy. -/
theorem c10_get_env_empty_vs_unset (env1 env2 : String → Option String) (v : String)
    (d : Option String) (h1 : env1 v = some "") (h2 : env2 v = none) :
    (RabbitmqClient.get_env env1 v d false = Except.ok d ∧
      RabbitmqClient.get_env env2 v d false = Except.ok d) ∧
    RabbitmqClient.get_env env1 v d true = Except.error RabbitmqClient.PyErr.keyError ∧
    ((d = none ∨ d = some "") →
      RabbitmqClient.get_env env2 v d true = Except.error RabbitmqClient.PyErr.keyError) ∧
    (∀ s, d = some s → s ≠ "" → RabbitmqClient.get_env env2 v d true = Except.ok (some s)) ∧
    Receiver.get_env = RabbitmqClient.get_env := by
  refine ⟨⟨?_, ?_⟩, ?_, ?_, ?_, rfl⟩
  · simp [RabbitmqClient.get_env, h1]
  · cases d with
    | none => simp [RabbitmqClient.get_env, h2]
    | some s => by_cases hs : s = "" <;> simp [RabbitmqClient.get_env, h2, hs]
  · simp [RabbitmqClient.get_env, h1]
  · rintro (rfl | rfl) <;> simp [RabbitmqClient.get_env, h2]
  · rintro s rfl hs
    simp [RabbitmqClient.get_env, h2, hs]

/-- C10 witness: at the concrete environments of the counterexample with
default x, the amended characterization instantiates as stated. -/
theorem c10_get_env_empty_vs_unset_witness :
    envEmptySet "S3_BUCKET_NAME" = some "" ∧
    RabbitmqClient.get_env envEmptySet "S3_BUCKET_NAME" (some "x") false =
        Except.ok (some "x") ∧
    RabbitmqClient.get_env envEmptySet "S3_BUCKET_NAME" (some "x") true =
        Except.error RabbitmqClient.PyErr.keyError ∧
    RabbitmqClient.get_env envUnset "S3_BUCKET_NAME" (some "x") true =
        Except.ok (some "x") := by
  have h := c10_get_env_empty_vs_unset envEmptySet envUnset "S3_BUCKET_NAME" (some "x")
    (by rfl) (by rfl)
  exact ⟨by rfl, h.1.1, h.2.1, h.2.2.2.1 "x" rfl (by decide)⟩
